import Mathlib

/-!
# Verification of the NomadIQ itinerary core

Shallow embedding of the two pure core functions of the repository:

* `generateItineraryRules` — the deterministic rules engine
  (`src/services/itineraryService.js`, `generateItineraryRules`);
* `enrichItineraryWithAI` and its helpers `buildTravelerProfile`,
  `enrichPeriodDescription`, `buildLocallyEnrichedData`
  (`src/services/itineraryAiService.js`).

JavaScript values are embedded as typed Lean values: JS numbers that hold
money amounts become `ℚ`, integer counters become `Int`/`Nat`, optional
object fields become `Option`, and JS string truthiness (`x || d`) is
modelled explicitly.  `new Date(string)` is modelled by `parseDate`,
restricted to the ISO `YYYY-MM-DD` date-only format that the application
uses (every other string is treated as an invalid date, exactly as
`"not-a-date"` is in JS); a successfully parsed date is represented by its
epoch day number, so that `getTime` differences in whole days coincide
with epoch-day differences.
-/

/-- JS string truthiness for `x || d` where `x` is a possibly-absent string:
`undefined` and `""` are falsy. -/
def jsOr (x : Option String) (d : String) : String :=
  match x with
  | some s => if s = "" then d else s
  | none => d

/-- JS `String.prototype.trim`: drop leading and trailing whitespace. -/
def jsTrim (s : String) : String :=
  String.mk (((s.data.dropWhile Char.isWhitespace).reverse.dropWhile
      Char.isWhitespace).reverse)

/-- JS `Math.round` on an exact rational: round half toward positive infinity. -/
def jsRound (q : ℚ) : ℤ := ⌊q + 1 / 2⌋

/-- JS `Array.prototype.join(sep)`. -/
def joinSep (sep : String) : List String → String
  | [] => ""
  | [a] => a
  | a :: b :: bs => a ++ sep ++ joinSep sep (b :: bs)

/-- Numeric value of a decimal digit character. -/
def digitVal (c : Char) : Nat := c.toNat - '0'.toNat

/-- Gregorian leap-year rule (as used by JS `Date` for ISO strings). -/
def isLeapYear (y : Nat) : Bool :=
  (y % 4 == 0 && y % 100 != 0) || y % 400 == 0

/-- Number of days of month `m` in year `y`; JS rejects ISO dates whose day
field exceeds this. -/
def daysInMonth (y m : Nat) : Nat :=
  if m = 2 then (if isLeapYear y then 29 else 28)
  else if m = 4 ∨ m = 6 ∨ m = 9 ∨ m = 11 then 30 else 31

/-- Days since 1970-01-01 of the civil date `y-m-d` (proleptic Gregorian). -/
def daysFromCivil (y m d : Nat) : Int :=
  let yi : Int := if m ≤ 2 then (y : Int) - 1 else (y : Int)
  let era : Int := (if 0 ≤ yi then yi else yi - 399) / 400
  let yoe : Int := yi - era * 400
  let mp : Int := if 2 < m then (m : Int) - 3 else (m : Int) + 9
  let doy : Int := (153 * mp + 2) / 5 + (d : Int) - 1
  let doe : Int := yoe * 365 + yoe / 4 - yoe / 100 + doy
  era * 146097 + doe - 719468

/-- Civil date `(y, m, d)` of an epoch day (inverse of `daysFromCivil`). -/
def civilFromDays (z : Int) : Int × Nat × Nat :=
  let z' : Int := z + 719468
  let era : Int := (if 0 ≤ z' then z' else z' - 146096) / 146097
  let doe : Nat := (z' - era * 146097).toNat
  let yoe : Nat := (doe - doe / 1460 + doe / 36524 - doe / 146096) / 365
  let y : Int := (yoe : Int) + era * 400
  let doy : Nat := doe - (365 * yoe + yoe / 4 - yoe / 100)
  let mp : Nat := (5 * doy + 2) / 153
  let d : Nat := doy - (153 * mp + 2) / 5 + 1
  let m : Nat := if mp < 10 then mp + 3 else mp - 9
  ((if m ≤ 2 then y + 1 else y), m, d)

/-- Left-pad a number with zeros to width `w`. -/
def padNum (w n : Nat) : String :=
  let s := toString n
  String.mk (List.replicate (w - s.length) '0') ++ s

/-- `Date.prototype.toISOString().slice(0, 10)` of a UTC-midnight date given
as an epoch day: render `YYYY-MM-DD`. -/
def formatEpochDay (z : Int) : String :=
  let c := civilFromDays z
  padNum 4 c.1.toNat ++ "-" ++ padNum 2 c.2.1 ++ "-" ++ padNum 2 c.2.2

/-- `new Date(s)` followed by the `isNaN(getTime())` validity check,
restricted to the ISO `YYYY-MM-DD` date-only form the application feeds it
(a `none` input models a missing field, i.e. `new Date(undefined)`).
Returns the epoch day of the parsed date, or `none` for an invalid date. -/
def parseDate : Option String → Option Int
  | none => none
  | some s =>
    match s.data with
    | [y1, y2, y3, y4, h1, m1, m2, h2, d1, d2] =>
      if (y1.isDigit && y2.isDigit && y3.isDigit && y4.isDigit &&
          h1 == '-' && m1.isDigit && m2.isDigit && h2 == '-' &&
          d1.isDigit && d2.isDigit) then
        let y := ((digitVal y1 * 10 + digitVal y2) * 10 + digitVal y3) * 10 + digitVal y4
        let m := digitVal m1 * 10 + digitVal m2
        let d := digitVal d1 * 10 + digitVal d2
        if 1 ≤ m ∧ m ≤ 12 ∧ 1 ≤ d ∧ d ≤ daysInMonth y m then
          some (daysFromCivil y m d)
        else none
      else none
    | _ => none

/-! ## Data model (§3 of the spec) -/

/-- An activity record, as consumed read-only by the generator.  Besides the
four fields the generator reads (`name`, `category`, `priceRange`, `id`) it
carries the remaining fields of the Activity entity, so that dependency
claims are not vacuous. -/
structure Activity where
  name : String
  category : Option String := none
  priceRange : Option String := none
  id : Option String := none
  destinationId : Option String := none
  openingHours : Option String := none
  coords : Option String := none
deriving DecidableEq, Inhabited

/-- A trip record, as consumed read-only by the core. -/
structure Trip where
  title : String
  startDate : Option String := none
  endDate : Option String := none
  budget : Option ℚ := none
  interests : List String := []
deriving DecidableEq, Inhabited

/-- One time block of a day of an itinerary. -/
structure Period where
  timeOfDay : String
  title : String
  description : String
  activityId : Option String := none
  estimatedCost : Option ℤ := none
deriving DecidableEq, Inhabited

/-- One day of an itinerary. -/
structure Day where
  day : Int
  date : Option String := none
  periods : List Period
deriving DecidableEq, Inhabited

/-- The `data` field of an itinerary document. -/
structure ItineraryData where
  days : List Day
deriving DecidableEq, Inhabited

/-- The slice of an itinerary document that the enricher reads. -/
structure Itinerary where
  data : ItineraryData
deriving DecidableEq, Inhabited

/-- The authenticated user as read by the enricher (only `name` is used). -/
structure User where
  name : Option String := none
deriving DecidableEq, Inhabited

/-- The `options` object of the enricher; `modelHint` is the only
recognized option. -/
structure EnrichOptions where
  modelHint : Option String := none
deriving DecidableEq, Inhabited

/-- Return value of `enrichItineraryWithAI`. -/
structure EnrichResult where
  data : ItineraryData
  aiModelUsed : String
  score : Int
deriving DecidableEq, Inhabited

/-! ## The rules generator (`generateItineraryRules`) -/

/-- `const timeSlots = ['morning', 'afternoon', 'evening'];` -/
def timeSlots : List String := ["morning", "afternoon", "evening"]

/-- `const maxActivitiesPerDay = timeSlots.length;` -/
def maxActivitiesPerDay : Nat := timeSlots.length

/-- The day-count resolution of `generateItineraryRules`: parse both trip
dates; when both are valid and `end >= start`, the trip spans
`(end - start in days) + 1` days clamped to `[1, 30]` and the start date is
remembered; otherwise fall back to 3 days and no start date. -/
def dayCountAndStart (trip : Trip) : Nat × Option Int :=
  match parseDate trip.startDate, parseDate trip.endDate with
  | some s, some e =>
    if s ≤ e then ((max 1 (min (e - s + 1) 30)).toNat, some s)
    else (3, none)
  | _, _ => (3, none)

/-- `hasBudget ? trip.budget / dayCount : null` with
`hasBudget = typeof trip.budget === 'number' && trip.budget > 0`. -/
def dailyBudget (trip : Trip) (dayCount : Nat) : Option ℚ :=
  match trip.budget with
  | some b => if 0 < b then some (b / dayCount) else none
  | none => none

/-- `dailyBudget ? Math.round(dailyBudget / timeSlots.length) : null`
(JS truthiness: a zero daily budget is falsy). -/
def perSlotBudget (trip : Trip) (dayCount : Nat) : Option ℤ :=
  match dailyBudget trip dayCount with
  | some q => if q = 0 then none else some (jsRound (q / timeSlots.length))
  | none => none

/-- `trip.title.replace(/^Viaje a\s+/i, '')`: strip a case-insensitive
leading `Viaje a` followed by at least one whitespace character. -/
def stripViajeA (s : String) : String :=
  let cs := s.data
  if (cs.take 7).map Char.toLower = "viaje a".data then
    match (cs.drop 7).head? with
    | some c =>
      if c.isWhitespace then String.mk ((cs.drop 7).dropWhile Char.isWhitespace)
      else s
    | none => s
  else s

/-- The `destinationName` computed by the generator: strip the `Viaje a`
prefix and trim; fall back to the raw title when the result is empty. -/
def destinationNameOf (title : String) : String :=
  let cleaned := jsTrim (stripViajeA title)
  if cleaned = "" then title else cleaned

/-- `buildInterestSentence()` of the generator. -/
def buildInterestSentence (interests : List String) : String :=
  if interests.isEmpty then ""
  else ", con actividades pensadas para quienes disfrutan de " ++
    joinSep " y " (interests.take 2)

/-- `timeOfDayLabel(timeOfDay)` of the generator. -/
def timeOfDayLabel (timeOfDay : String) : String :=
  match timeOfDay with
  | "morning" => "la mañana"
  | "afternoon" => "la tarde"
  | "evening" => "la noche"
  | _ => "el día"

/-- `buildDateString(baseDate, offset)` of the generator: `undefined` when
there is no start date, else the ISO rendering of start + offset days. -/
def buildDateString (baseDate : Option Int) (offset : Nat) : Option String :=
  baseDate.map (fun e => formatEpochDay (e + offset))

/-- `activities.length > 0 ? activities[idx % activities.length] : null`. -/
def pickActivity (activities : List Activity) (idx : Nat) : Option Activity :=
  if 0 < activities.length then activities.get? (idx % activities.length)
  else none

/-- The body of the inner slot loop of `generateItineraryRules`: build one
period from the selected activity (if any) and the slot name. -/
def buildPeriod (trip : Trip) (destinationName interestSentence : String)
    (perSlotB : Option ℤ) (activity? : Option Activity) (timeOfDay : String) :
    Period :=
  let timeLabel := timeOfDayLabel timeOfDay
  let title :=
    match activity? with
    | some a => a.name
    | none => "Explorar " ++ (if destinationName = "" then trip.title else destinationName)
  let descriptionParts :=
    ["Bloque de " ++ timeLabel ++ " en " ++
      (if destinationName = "" then trip.title else destinationName) ++ "."] ++
    (match activity? with
     | some a =>
       ["Actividad sugerida: " ++ a.name ++ "."] ++
       (match a.category with
        | some c => if c = "" then [] else ["Categoría: " ++ c ++ "."]
        | none => []) ++
       (match a.priceRange with
        | some p => if p = "" then [] else ["Rango de precio aproximado: " ++ p ++ "."]
        | none => [])
     | none => ["Espacio libre para que el viajero descubra la ciudad a su propio ritmo."]) ++
    (if interestSentence = "" then [] else [interestSentence]) ++
    (match perSlotB with
     | some v =>
       ["Presupuesto sugerido para este bloque: aproximadamente " ++ toString v ++
         " unidades de la moneda del viaje."]
     | none => [])
  { timeOfDay := timeOfDay
    title := title
    description := joinSep " " descriptionParts
    activityId :=
      match activity? with
      | some a =>
        (match a.id with
         | some i => if i = "" then none else some i
         | none => none)
      | none => none
    estimatedCost := perSlotB }

/-- The body of the outer day loop of `generateItineraryRules`: build day
`i` (0-based) with its three periods; the loop over `timeSlots` stops at
`maxActivitiesPerDay` slots. -/
def buildDay (trip : Trip) (activities : List Activity)
    (destinationName interestSentence : String) (perSlotB : Option ℤ)
    (startDateObj : Option Int) (i : Nat) : Day :=
  { day := (i : Int) + 1
    date := buildDateString startDateObj i
    periods :=
      ((timeSlots.take maxActivitiesPerDay).enum).map fun st =>
        buildPeriod trip destinationName interestSentence perSlotB
          (pickActivity activities (i * maxActivitiesPerDay + st.1)) st.2 }

/-- `generateItineraryRules({ trip, activities = [] })` from
`src/services/itineraryService.js`: the deterministic rules engine. -/
def generateItineraryRules (trip : Trip) (activities : List Activity) :
    ItineraryData :=
  let dayCount := (dayCountAndStart trip).1
  let startDateObj := (dayCountAndStart trip).2
  let interestSentence := buildInterestSentence trip.interests
  let perSlotB := perSlotBudget trip dayCount
  let destinationName := destinationNameOf trip.title
  { days := (List.range dayCount).map
      (buildDay trip activities destinationName interestSentence perSlotB
        startDateObj) }

/-! ## The enricher (`itineraryAiService.js`) -/

/-- `process.env.AI_MODEL_NAME || 'local-rules-enrichment-v1'`, read once at
module load; modelled by its default value. -/
def DEFAULT_AI_MODEL_NAME : String := "local-rules-enrichment-v1"

/-- `buildTravelerProfile({ trip, user })`. -/
def buildTravelerProfile (trip : Trip) (user : Option User) : String :=
  let travelerName := jsOr (user.bind User.name) "la persona viajera"
  let interests := trip.interests
  if 0 < interests.length then
    travelerName ++ ", que disfruta especialmente de " ++
      joinSep ", " (interests.take 3)
  else
    travelerName ++ ", que busca una experiencia equilibrada entre descanso y descubrimiento"

/-- `enrichPeriodDescription({ period, dayNumber, trip, travelerProfile })`. -/
def enrichPeriodDescription (period : Period) (dayNumber : Int) (trip : Trip)
    (travelerProfile : String) : String :=
  -- `period.description || ''` is the identity on a (typed) string.
  let baseDescription := period.description
  let tripTitle := if trip.title = "" then "el viaje" else trip.title
  let momentSentence :=
    match period.timeOfDay with
    | "morning" =>
      "Es un buen momento para empezar el día con calma, respirando el ambiente del lugar."
    | "afternoon" =>
      "La tarde invita a seguir explorando sin apuro, combinando movimiento y pequeños descansos."
    | "evening" =>
      "La noche es ideal para bajar revoluciones y disfrutar de la ciudad iluminada."
    | _ =>
      "Este momento del día es perfecto para conectar con el lugar y contigo misma/o."
  let dayIntro := "Día " ++ toString dayNumber ++ " de tu viaje \"" ++ tripTitle ++ "\"."
  let travelerSentence := "Pensado para " ++ travelerProfile ++ "."
  jsTrim (baseDescription ++ " " ++ dayIntro ++ " " ++ momentSentence ++ " " ++
    travelerSentence)

/-- `buildLocallyEnrichedData({ itinerary, trip, user })`: rewrite every
period description, keeping all other fields of days and periods. -/
def buildLocallyEnrichedData (itinerary : Itinerary) (trip : Trip)
    (user : Option User) : ItineraryData :=
  let originalDays := itinerary.data.days
  let travelerProfile := buildTravelerProfile trip user
  { days := originalDays.map fun day =>
      let dayNumber := if 0 < day.day then day.day else 1
      { day with periods := day.periods.map fun period =>
          { period with description :=
              enrichPeriodDescription period dayNumber trip travelerProfile } } }

/-- `enrichItineraryWithAI({ itinerary, trip, user, options })`: the public
enrichment entry point (pure apart from logging; the `async` wrapper never
suspends). -/
def enrichItineraryWithAI (itinerary : Itinerary) (trip : Trip)
    (user : Option User) (options : EnrichOptions) : EnrichResult :=
  let modelName :=
    match options.modelHint with
    | some h => if 0 < (jsTrim h).length then jsTrim h else DEFAULT_AI_MODEL_NAME
    | none => DEFAULT_AI_MODEL_NAME
  let enrichedData := buildLocallyEnrichedData itinerary trip user
  { data := enrichedData
    aiModelUsed := modelName
    score := 90 }

/-! ## Helper lemmas -/

/-- Sample trips used to instantiate universally quantified theorems. -/
def sampleTrip : Trip := { title := "Trip" }

def julyTrip : Trip :=
  { title := "Viaje a Bariloche", startDate := some "2025-07-15",
    endDate := some "2025-07-18" }

def notADateTrip : Trip := { title := "T", startDate := some "not-a-date" }

theorem dayCount_pos (trip : Trip) : 1 ≤ (dayCountAndStart trip).1 := by
  unfold dayCountAndStart
  rcases parseDate trip.startDate with _ | s <;> rcases parseDate trip.endDate with _ | e <;>
    simp only []
  · omega
  · omega
  · omega
  · split <;> dsimp only <;> omega

theorem dayCount_le_30 (trip : Trip) : (dayCountAndStart trip).1 ≤ 30 := by
  unfold dayCountAndStart
  rcases parseDate trip.startDate with _ | s <;> rcases parseDate trip.endDate with _ | e <;>
    simp only []
  · omega
  · omega
  · omega
  · split <;> dsimp only <;> omega

theorem genDays_length (trip : Trip) (acts : List Activity) :
    (generateItineraryRules trip acts).days.length = (dayCountAndStart trip).1 := by
  simp [generateItineraryRules]

theorem genDays_get? (trip : Trip) (acts : List Activity) (i : Nat)
    (hi : i < (dayCountAndStart trip).1) :
    (generateItineraryRules trip acts).days[i]? =
      some (buildDay trip acts (destinationNameOf trip.title)
        (buildInterestSentence trip.interests)
        (perSlotBudget trip (dayCountAndStart trip).1)
        (dayCountAndStart trip).2 i) := by
  simp [generateItineraryRules, List.getElem?_range hi]

theorem genDays_getD (trip : Trip) (acts : List Activity) (i : Nat)
    (hi : i < (dayCountAndStart trip).1) :
    (generateItineraryRules trip acts).days.getD i default =
      buildDay trip acts (destinationNameOf trip.title)
        (buildInterestSentence trip.interests)
        (perSlotBudget trip (dayCountAndStart trip).1)
        (dayCountAndStart trip).2 i := by
  rw [List.getD_eq_getElem?_getD, genDays_get? trip acts i hi]
  rfl

theorem buildDay_periods (trip : Trip) (acts : List Activity)
    (dn isent : String) (psb : Option ℤ) (sd : Option Int) (i : Nat) :
    (buildDay trip acts dn isent psb sd i).periods =
      [buildPeriod trip dn isent psb (pickActivity acts (i * 3)) "morning",
       buildPeriod trip dn isent psb (pickActivity acts (i * 3 + 1)) "afternoon",
       buildPeriod trip dn isent psb (pickActivity acts (i * 3 + 2)) "evening"] := rfl

/-! ## Claims C1, C2, C3, C7 -/

/-- C1 (counterexample): the claim that `enrich` always returns at least one
day fails on the code: on an itinerary whose `data.days` is empty, the
enricher returns an itinerary with zero days. -/
theorem C1_counterexample :
    ¬ 1 ≤ (enrichItineraryWithAI ⟨⟨[]⟩⟩ sampleTrip none ⟨none⟩).data.days.length := by
  decide

/-- C1 (amended): both core functions are total (never throw).  The
generator always returns at least one day, and every returned day has at
least one period.  The enricher returns exactly one day per input day with
exactly one period per input period, so its output contains at least one
day with at least one period whenever its input does — but on an input
with zero days it returns zero days. -/
theorem C1_never_fails :
    (∀ (trip : Trip) (acts : List Activity),
      1 ≤ (generateItineraryRules trip acts).days.length ∧
      ∀ i, i < (generateItineraryRules trip acts).days.length →
        1 ≤ ((generateItineraryRules trip acts).days.getD i default).periods.length) ∧
    (∀ (itin : Itinerary) (trip : Trip) (user : Option User) (opts : EnrichOptions),
      (enrichItineraryWithAI itin trip user opts).data.days.map (fun d => d.periods.length)
        = itin.data.days.map (fun d => d.periods.length)) := by
  constructor
  · intro trip acts
    refine ⟨by rw [genDays_length]; exact dayCount_pos trip, ?_⟩
    intro i hi
    rw [genDays_length] at hi
    rw [genDays_getD trip acts i hi, buildDay_periods]
    simp
  · intro itin trip user opts
    simp [enrichItineraryWithAI, buildLocallyEnrichedData, List.map_map]

theorem C1_witness :
    ((1 ≤ (generateItineraryRules sampleTrip []).days.length ∧
      1 ≤ ((generateItineraryRules sampleTrip []).days.getD 0 default).periods.length)) ∧
    (enrichItineraryWithAI ⟨generateItineraryRules sampleTrip []⟩ sampleTrip none
        ⟨none⟩).data.days.map (fun d => d.periods.length)
      = (generateItineraryRules sampleTrip []).days.map (fun d => d.periods.length) :=
  ⟨⟨(C1_never_fails.1 sampleTrip []).1, (C1_never_fails.1 sampleTrip []).2 0 (by decide)⟩,
   C1_never_fails.2 ⟨generateItineraryRules sampleTrip []⟩ sampleTrip none ⟨none⟩⟩

/-- C2: when both trip dates parse and `end ≥ start`, the number of
generated days is `(end - start) + 1` clamped to `[1, 30]`; the concrete
pair 2025-07-15 / 2025-07-18 yields 4 days; and for every input the number
of days lies in `[1, 30]`. -/
theorem C2_day_count :
    (∀ (trip : Trip) (acts : List Activity) (s e : ℤ),
      parseDate trip.startDate = some s → parseDate trip.endDate = some e → s ≤ e →
      ((generateItineraryRules trip acts).days.length : ℤ) = max 1 (min (e - s + 1) 30)) ∧
    (generateItineraryRules julyTrip []).days.length = 4 ∧
    (∀ (trip : Trip) (acts : List Activity),
      1 ≤ (generateItineraryRules trip acts).days.length ∧
      (generateItineraryRules trip acts).days.length ≤ 30) := by
  refine ⟨?_, by decide, ?_⟩
  · intro trip acts s e hs he hle
    rw [genDays_length]
    unfold dayCountAndStart
    rw [hs, he]
    simp only [if_pos hle]
    omega
  · intro trip acts
    rw [genDays_length]
    exact ⟨dayCount_pos trip, dayCount_le_30 trip⟩

theorem C2_witness :
    ((generateItineraryRules julyTrip []).days.length : ℤ) =
      max 1 (min ((20287 : ℤ) - 20284 + 1) 30) :=
  C2_day_count.1 julyTrip [] 20284 20287 (by decide) (by decide) (by decide)

/-- C3: in every generator output, day `i` (0-based) carries the 1-indexed
day number `i + 1`, and its periods are exactly the three slots
`morning`, `afternoon`, `evening` in that order. -/
theorem C3_day_and_slot_order :
    ∀ (trip : Trip) (acts : List Activity) (i : Nat),
      i < (generateItineraryRules trip acts).days.length →
      ((generateItineraryRules trip acts).days.getD i default).day = (i : Int) + 1 ∧
      ((generateItineraryRules trip acts).days.getD i default).periods.map Period.timeOfDay
        = ["morning", "afternoon", "evening"] := by
  intro trip acts i hi
  rw [genDays_length] at hi
  rw [genDays_getD trip acts i hi]
  exact ⟨rfl, rfl⟩

theorem C3_witness :
    ((generateItineraryRules sampleTrip []).days.getD 0 default).day = ((0 : Nat) : Int) + 1 ∧
    ((generateItineraryRules sampleTrip []).days.getD 0 default).periods.map Period.timeOfDay
      = ["morning", "afternoon", "evening"] :=
  C3_day_and_slot_order sampleTrip [] 0 (by decide)

/-- C7: an unparsable `startDate` does not make the generator fail: it
returns exactly 3 days and every day's `date` field is absent. -/
theorem C7_unparsable_start :
    ∀ (trip : Trip) (acts : List Activity),
      parseDate trip.startDate = none →
      (generateItineraryRules trip acts).days.length = 3 ∧
      ∀ d ∈ (generateItineraryRules trip acts).days, d.date = none := by
  intro trip acts h
  have hdc : dayCountAndStart trip = (3, none) := by
    unfold dayCountAndStart
    rw [h]
  constructor
  · rw [genDays_length, hdc]
  · intro d hd
    simp [generateItineraryRules, hdc] at hd
    obtain ⟨i, _, rfl⟩ := hd
    rfl

theorem C7_witness :
    (generateItineraryRules notADateTrip []).days.length = 3 ∧
    ∀ d ∈ (generateItineraryRules notADateTrip []).days, d.date = none :=
  C7_unparsable_start notADateTrip [] (by decide)

/-! ## Claims C4, C5 -/

theorem buildDay_periods_getD (trip : Trip) (acts : List Activity)
    (dn isent : String) (psb : Option ℤ) (sd : Option Int) (i s : Nat)
    (hs : s < 3) :
    (buildDay trip acts dn isent psb sd i).periods.getD s default =
      buildPeriod trip dn isent psb (pickActivity acts (i * 3 + s))
        (timeSlots.getD s "") := by
  rw [buildDay_periods]
  exact match s, hs with
  | 0, _ => rfl
  | 1, _ => rfl
  | 2, _ => rfl

def tourActivity : Activity :=
  { name := "City tour", category := some "sightseeing",
    priceRange := some "low", id := some "a1" }

/-- C4: with a non-empty activities list of length `k`, the period of day
`i` (0-based) and slot `s` is built from activity `activities[(3i+s) % k]`
(its title is that activity's name), and the generator is deterministic. -/
theorem C4_round_robin :
    (∀ (trip : Trip) (acts : List Activity) (i s : Nat) (a : Activity),
      i < (generateItineraryRules trip acts).days.length → s < 3 →
      acts.get? ((3 * i + s) % acts.length) = some a →
      (((generateItineraryRules trip acts).days.getD i default).periods.getD s
          default).title = a.name ∧
      ((generateItineraryRules trip acts).days.getD i default).periods.getD s default
        = buildPeriod trip (destinationNameOf trip.title)
            (buildInterestSentence trip.interests)
            (perSlotBudget trip (dayCountAndStart trip).1)
            (some a) (timeSlots.getD s "")) ∧
    (∀ (trip : Trip) (acts : List Activity),
      generateItineraryRules trip acts = generateItineraryRules trip acts) := by
  refine ⟨?_, fun _ _ => rfl⟩
  intro trip acts i s a hi hs hg
  have hlen : 0 < acts.length := by
    rcases acts with _ | ⟨x, xs⟩
    · simp [List.get?] at hg
    · simp
  rw [genDays_length] at hi
  rw [genDays_getD trip acts i hi, buildDay_periods_getD trip acts _ _ _ _ i s hs]
  unfold pickActivity
  rw [if_pos hlen, Nat.mul_comm i 3, hg]
  exact ⟨rfl, rfl⟩

theorem C4_witness :
    ((((generateItineraryRules sampleTrip [tourActivity]).days.getD 0 default).periods.getD 0
        default).title = tourActivity.name ∧
      ((generateItineraryRules sampleTrip [tourActivity]).days.getD 0 default).periods.getD 0
          default
        = buildPeriod sampleTrip (destinationNameOf sampleTrip.title)
            (buildInterestSentence sampleTrip.interests)
            (perSlotBudget sampleTrip (dayCountAndStart sampleTrip).1)
            (some tourActivity) (timeSlots.getD 0 "")) ∧
    generateItineraryRules sampleTrip [tourActivity]
      = generateItineraryRules sampleTrip [tourActivity] :=
  ⟨C4_round_robin.1 sampleTrip [tourActivity] 0 0 tourActivity (by decide) (by decide)
      (by decide),
   C4_round_robin.2 sampleTrip [tourActivity]⟩

theorem period_cost_eq (trip : Trip) (acts : List Activity) (d : Day)
    (p : Period) (hd : d ∈ (generateItineraryRules trip acts).days)
    (hp : p ∈ d.periods) :
    p.estimatedCost = perSlotBudget trip (dayCountAndStart trip).1 := by
  simp [generateItineraryRules] at hd
  obtain ⟨i, _, rfl⟩ := hd
  rw [buildDay_periods] at hp
  simp only [List.mem_cons, List.not_mem_nil, or_false] at hp
  rcases hp with h | h | h <;> subst h <;> rfl

def budget900Trip : Trip := { title := "T", budget := some 900 }

def budget600Trip : Trip := { title := "T", budget := some 600 }

/-- C5: with a positive budget every period carries
`estimatedCost = round(budget / dayCount / 3)` (900 over 3 days gives 100,
600 over 3 days gives 67); with an absent or non-positive budget no period
carries an `estimatedCost`. -/
theorem C5_budget :
    (∀ (trip : Trip) (acts : List Activity) (b : ℚ),
      trip.budget = some b → 0 < b →
      ∀ d ∈ (generateItineraryRules trip acts).days, ∀ p ∈ d.periods,
        p.estimatedCost =
          some (jsRound (b / ((generateItineraryRules trip acts).days.length : ℚ) / 3))) ∧
    (∀ (trip : Trip) (acts : List Activity),
      (∀ b, trip.budget = some b → ¬ 0 < b) →
      ∀ d ∈ (generateItineraryRules trip acts).days, ∀ p ∈ d.periods,
        p.estimatedCost = none) ∧
    (∀ d ∈ (generateItineraryRules budget900Trip []).days, ∀ p ∈ d.periods,
      p.estimatedCost = some 100) ∧
    (∀ d ∈ (generateItineraryRules budget600Trip []).days, ∀ p ∈ d.periods,
      p.estimatedCost = some 67) := by
  have h1 : ∀ (trip : Trip) (acts : List Activity) (b : ℚ),
      trip.budget = some b → 0 < b →
      ∀ d ∈ (generateItineraryRules trip acts).days, ∀ p ∈ d.periods,
        p.estimatedCost =
          some (jsRound (b / ((generateItineraryRules trip acts).days.length : ℚ) / 3)) := by
    intro trip acts b hb hpos d hd p hp
    rw [period_cost_eq trip acts d p hd hp, genDays_length]
    have hdcpos : (0 : ℚ) < ((dayCountAndStart trip).1 : ℚ) := by
      have := dayCount_pos trip
      exact_mod_cast Nat.lt_of_lt_of_le Nat.zero_lt_one this
    have hq : ¬ (b / ((dayCountAndStart trip).1 : ℚ) = 0) :=
      ne_of_gt (div_pos hpos hdcpos)
    unfold perSlotBudget dailyBudget
    rw [hb]
    dsimp only
    rw [if_pos hpos]
    dsimp only
    simp only [if_neg hq]
    norm_num [timeSlots]
  refine ⟨h1, ?_, ?_, ?_⟩
  · intro trip acts hnb d hd p hp
    rw [period_cost_eq trip acts d p hd hp]
    unfold perSlotBudget dailyBudget
    rcases hbud : trip.budget with _ | b
    · rfl
    · dsimp only
      rw [if_neg (hnb b hbud)]
  · intro d hd p hp
    rw [h1 budget900Trip [] 900 rfl (by norm_num) d hd p hp]
    have hlen : (generateItineraryRules budget900Trip []).days.length = 3 := by
      rw [genDays_length]; rfl
    rw [hlen]
    norm_num [jsRound]
  · intro d hd p hp
    rw [h1 budget600Trip [] 600 rfl (by norm_num) d hd p hp]
    have hlen : (generateItineraryRules budget600Trip []).days.length = 3 := by
      rw [genDays_length]; rfl
    rw [hlen]
    norm_num [jsRound]

theorem C5_witness :
    ∀ d ∈ (generateItineraryRules budget900Trip []).days, ∀ p ∈ d.periods,
      p.estimatedCost =
        some (jsRound ((900 : ℚ) /
          ((generateItineraryRules budget900Trip []).days.length : ℚ) / 3)) :=
  C5_budget.1 budget900Trip [] 900 rfl (by norm_num)

/-! ## Claim C8 -/

theorem length_pos_of_ne_empty (s : String) (h : s ≠ "") : 0 < s.length := by
  rcases s with ⟨l⟩
  cases l with
  | nil => exact absurd rfl h
  | cons c cs => simp [String.length]

/-- C8: the enricher always returns the fixed score 90; its model tag is
the trimmed `options.modelHint` when that trims to a non-empty string, and
the fixed default model tag otherwise. -/
theorem C8_score_and_model_tag :
    ∀ (itin : Itinerary) (trip : Trip) (user : Option User) (opts : EnrichOptions),
      (enrichItineraryWithAI itin trip user opts).score = 90 ∧
      (∀ h, opts.modelHint = some h → jsTrim h ≠ "" →
        (enrichItineraryWithAI itin trip user opts).aiModelUsed = jsTrim h) ∧
      (∀ h, opts.modelHint = some h → jsTrim h = "" →
        (enrichItineraryWithAI itin trip user opts).aiModelUsed = DEFAULT_AI_MODEL_NAME) ∧
      (opts.modelHint = none →
        (enrichItineraryWithAI itin trip user opts).aiModelUsed = DEFAULT_AI_MODEL_NAME) := by
  intro itin trip user opts
  refine ⟨rfl, ?_, ?_, ?_⟩
  · intro h hm hne
    simp only [enrichItineraryWithAI, hm]
    rw [if_pos (length_pos_of_ne_empty _ hne)]
  · intro h hm he
    simp only [enrichItineraryWithAI, hm, he]
    rfl
  · intro hm
    simp only [enrichItineraryWithAI, hm]

theorem C8_witness :
    ((enrichItineraryWithAI ⟨⟨[]⟩⟩ sampleTrip none ⟨some "  gpt-x "⟩).score = 90 ∧
      (enrichItineraryWithAI ⟨⟨[]⟩⟩ sampleTrip none ⟨some "  gpt-x "⟩).aiModelUsed
        = jsTrim "  gpt-x ") ∧
    (enrichItineraryWithAI ⟨⟨[]⟩⟩ sampleTrip none ⟨none⟩).aiModelUsed
      = DEFAULT_AI_MODEL_NAME :=
  ⟨⟨(C8_score_and_model_tag ⟨⟨[]⟩⟩ sampleTrip none ⟨some "  gpt-x "⟩).1,
    (C8_score_and_model_tag ⟨⟨[]⟩⟩ sampleTrip none ⟨some "  gpt-x "⟩).2.1 "  gpt-x " rfl
      (by decide)⟩,
   (C8_score_and_model_tag ⟨⟨[]⟩⟩ sampleTrip none ⟨none⟩).2.2.2 rfl⟩

/-! ## Claim C9 -/

theorem buildPeriod_some_congr (trip : Trip) (dn isent : String) (psb : Option ℤ)
    (t : String) (a1 a2 : Activity) (hn : a1.name = a2.name)
    (hc : a1.category = a2.category) (hpr : a1.priceRange = a2.priceRange)
    (hid : a1.id = a2.id) :
    buildPeriod trip dn isent psb (some a1) t
      = buildPeriod trip dn isent psb (some a2) t := by
  unfold buildPeriod
  dsimp only
  rw [hn, hc, hpr, hid]

/-- C9: the generator reads an activity only through its `name`,
`category`, `priceRange` and `id` fields: two activity lists of equal
length agreeing pointwise on those four fields produce identical outputs. -/
theorem C9_field_dependence :
    ∀ (trip : Trip) (acts1 acts2 : List Activity),
      acts1.length = acts2.length →
      (∀ (j : Nat) (a1 a2 : Activity),
        acts1.get? j = some a1 → acts2.get? j = some a2 →
        a1.name = a2.name ∧ a1.category = a2.category ∧
        a1.priceRange = a2.priceRange ∧ a1.id = a2.id) →
      generateItineraryRules trip acts1 = generateItineraryRules trip acts2 := by
  intro trip acts1 acts2 hlen hag
  have hpick : ∀ k, (pickActivity acts1 k = none ∧ pickActivity acts2 k = none) ∨
      (∃ a1 a2, pickActivity acts1 k = some a1 ∧ pickActivity acts2 k = some a2 ∧
        a1.name = a2.name ∧ a1.category = a2.category ∧
        a1.priceRange = a2.priceRange ∧ a1.id = a2.id) := by
    intro k
    unfold pickActivity
    rw [hlen]
    by_cases h0 : 0 < acts2.length
    · rw [if_pos h0, if_pos h0]
      have hk : k % acts2.length < acts2.length := Nat.mod_lt _ h0
      rcases hg1 : acts1.get? (k % acts2.length) with _ | a1
      · rw [List.get?_eq_none] at hg1
        omega
      · rcases hg2 : acts2.get? (k % acts2.length) with _ | a2
        · rw [List.get?_eq_none] at hg2
          omega
        · exact Or.inr ⟨a1, a2, rfl, rfl, hag _ _ _ hg1 hg2⟩
    · rw [if_neg h0, if_neg h0]
      exact Or.inl ⟨rfl, rfl⟩
  unfold generateItineraryRules
  dsimp only
  congr 1
  apply List.map_congr_left
  intro i _
  unfold buildDay
  congr 1
  apply List.map_congr_left
  intro st _
  rcases hpick (i * maxActivitiesPerDay + st.1) with ⟨h1, h2⟩ |
    ⟨a1, a2, h1, h2, hn, hc, hpr, hid⟩
  · rw [h1, h2]
  · rw [h1, h2]
    exact buildPeriod_some_congr trip _ _ _ _ a1 a2 hn hc hpr hid

def actExtra : Activity :=
  { name := "City tour", category := some "sightseeing",
    priceRange := some "low", id := some "a1", destinationId := some "d1",
    openingHours := some "09-18", coords := some "-41.13,-71.31" }

theorem C9_witness :
    generateItineraryRules sampleTrip [tourActivity]
      = generateItineraryRules sampleTrip [actExtra] := by
  apply C9_field_dependence sampleTrip [tourActivity] [actExtra] rfl
  intro j a1 a2 h1 h2
  cases j with
  | zero =>
    rw [List.get?_cons_zero] at h1 h2
    cases h1
    cases h2
    exact ⟨rfl, rfl, rfl, rfl⟩
  | succ n =>
    rw [List.get?_cons_succ, List.get?_nil] at h1
    exact Option.noConfusion h1

/-! ## Claim C10 -/

/-- C10: the enricher keeps every field of each day — in particular `day`
and `date` — and only replaces `periods` with the rewritten periods. -/
theorem C10_day_fields_preserved :
    ∀ (itin : Itinerary) (trip : Trip) (user : Option User)
      (opts : EnrichOptions) (i : Nat) (d : Day),
      itin.data.days.get? i = some d →
      ∃ d', (enrichItineraryWithAI itin trip user opts).data.days.get? i = some d' ∧
        d'.day = d.day ∧ d'.date = d.date ∧
        d'.periods = d.periods.map (fun p =>
          { p with description := (enrichPeriodDescription p
              (if 0 < d.day then d.day else 1) trip (buildTravelerProfile trip user)) }) := by
  intro itin trip user opts i d hd
  have hget : (enrichItineraryWithAI itin trip user opts).data.days.get? i =
      some { d with periods := (d.periods.map (fun p =>
        { p with description := (enrichPeriodDescription p
            (if 0 < d.day then d.day else 1) trip (buildTravelerProfile trip user)) })) } := by
    rw [List.get?_eq_getElem?] at hd ⊢
    simp only [enrichItineraryWithAI, buildLocallyEnrichedData]
    rw [List.getElem?_map, hd]
    rfl
  exact ⟨_, hget, rfl, rfl, rfl⟩

def oddDay : Day :=
  { day := 5, date := some "2030-12-31",
    periods := [{ timeOfDay := "morning", title := "t", description := "x" }] }

theorem C10_witness :
    ∃ d', (enrichItineraryWithAI ⟨⟨[oddDay]⟩⟩ sampleTrip none ⟨none⟩).data.days.get? 0
        = some d' ∧
      d'.day = oddDay.day ∧ d'.date = oddDay.date ∧
      d'.periods = oddDay.periods.map (fun p =>
        { p with description := (enrichPeriodDescription p
            (if 0 < oddDay.day then oddDay.day else 1) sampleTrip
            (buildTravelerProfile sampleTrip none)) }) :=
  C10_day_fields_preserved ⟨⟨[oddDay]⟩⟩ sampleTrip none ⟨none⟩ 0 oddDay rfl

/-! ## Claim C6 -/

theorem joinSep_cons (sep a : String) (l : List String) :
    ∃ t, joinSep sep (a :: l) = a ++ t := by
  cases l with
  | nil => exact ⟨"", (String.append_empty a).symm⟩
  | cons b bs =>
    exact ⟨sep ++ joinSep sep (b :: bs), by
      rw [show joinSep sep (a :: b :: bs) = a ++ sep ++ joinSep sep (b :: bs) from rfl,
        String.append_assoc]⟩

theorem jsTrim_eq_self (s : String) (c d : Char)
    (h1 : s.data.head? = some c) (w1 : c.isWhitespace = false)
    (h2 : s.data.getLast? = some d) (w2 : d.isWhitespace = false) :
    jsTrim s = s := by
  unfold jsTrim
  have hd1 : s.data.dropWhile Char.isWhitespace = s.data := by
    cases hsd : s.data with
    | nil => rfl
    | cons a l =>
      rw [hsd, List.head?_cons] at h1
      injection h1 with h1
      subst h1
      exact List.dropWhile_cons_of_neg (by simp [w1])
  rw [hd1]
  have hd2 : s.data.reverse.dropWhile Char.isWhitespace = s.data.reverse := by
    cases hsr : s.data.reverse with
    | nil => rfl
    | cons a l =>
      have ha : s.data.getLast? = some a := by
        rw [← List.head?_reverse, hsr, List.head?_cons]
      rw [h2] at ha
      injection ha with ha
      subst ha
      exact List.dropWhile_cons_of_neg (by simp [w2])
  rw [hd2, List.reverse_reverse]

theorem jsTrim_split (X A B profile : String) :
    ∃ suf : String, suf ≠ "" ∧
      jsTrim ("Bloque de " ++ X ++ " " ++ A ++ " " ++ B ++ " " ++
          ("Pensado para " ++ profile ++ "."))
        = ("Bloque de " ++ X) ++ suf := by
  refine ⟨" " ++ A ++ " " ++ B ++ " " ++ ("Pensado para " ++ profile ++ "."), ?_, ?_⟩
  · intro h
    have h' := congrArg String.length h
    simp only [String.length_append] at h'
    have h1 : (" " : String).length = 1 := rfl
    have h0 : ("" : String).length = 0 := rfl
    omega
  · have hh : ("Bloque de " ++ X ++ " " ++ A ++ " " ++ B ++ " " ++
        ("Pensado para " ++ profile ++ ".")).data.head? = some 'B' := by
      simp only [String.data_append, List.head?_append]
      rfl
    have hl : ("Bloque de " ++ X ++ " " ++ A ++ " " ++ B ++ " " ++
        ("Pensado para " ++ profile ++ ".")).data.getLast? = some '.' := by
      simp only [String.data_append, List.getLast?_append]
      rfl
    rw [jsTrim_eq_self _ 'B' '.' hh (by decide) hl (by decide)]
    simp only [String.append_assoc]

theorem enrichPeriodDescription_split (period : Period) (dayNumber : Int)
    (trip2 : Trip) (profile : String) (X : String)
    (hd : period.description = "Bloque de " ++ X) :
    ∃ suf : String, suf ≠ "" ∧
      enrichPeriodDescription period dayNumber trip2 profile
        = period.description ++ suf := by
  unfold enrichPeriodDescription
  rw [hd]
  exact jsTrim_split X _ _ profile

theorem buildPeriod_description (trip : Trip) (dn isent : String)
    (psb : Option ℤ) (a? : Option Activity) (t : String) :
    ∃ X, (buildPeriod trip dn isent psb a? t).description = "Bloque de " ++ X := by
  unfold buildPeriod
  dsimp only
  simp only [List.cons_append, List.nil_append]
  obtain ⟨tl, htl⟩ := joinSep_cons " "
    ("Bloque de " ++ timeOfDayLabel t ++ " en " ++
      (if dn = "" then trip.title else dn) ++ ".") _
  rw [htl]
  exact ⟨timeOfDayLabel t ++ (" en " ++ ((if dn = "" then trip.title else dn) ++
    ("." ++ tl))), by simp only [String.append_assoc]⟩

theorem getD_map_of_lt {α β : Type} [Inhabited α] [Inhabited β] (f : α → β)
    (l : List α) (n : Nat) (h : n < l.length) :
    (l.map f).getD n default = f (l.getD n default) := by
  rw [List.getD_eq_getElem?_getD, List.getD_eq_getElem?_getD, List.getElem?_map,
    List.getElem?_eq_getElem h]
  rfl

/-- C6: enriching a generated itinerary preserves the number of days and
the per-day number of periods, preserves each period's `timeOfDay`,
`title`, `activityId` and `estimatedCost` verbatim, and replaces each
period's description by a different string that contains the original
description (as a prefix, hence as a substring). -/
theorem C6_enrich_frame :
    (∀ (trip : Trip) (acts : List Activity) (trip2 : Trip) (user : Option User)
      (opts : EnrichOptions),
      (enrichItineraryWithAI ⟨generateItineraryRules trip acts⟩ trip2 user
          opts).data.days.map (fun d => d.periods.length)
        = (generateItineraryRules trip acts).days.map (fun d => d.periods.length)) ∧
    (∀ (trip : Trip) (acts : List Activity) (trip2 : Trip) (user : Option User)
      (opts : EnrichOptions) (i s : Nat) (p p' : Period),
      i < (generateItineraryRules trip acts).days.length →
      s < ((generateItineraryRules trip acts).days.getD i default).periods.length →
      ((generateItineraryRules trip acts).days.getD i default).periods.getD s default = p →
      ((enrichItineraryWithAI ⟨generateItineraryRules trip acts⟩ trip2 user
          opts).data.days.getD i default).periods.getD s default = p' →
      p'.timeOfDay = p.timeOfDay ∧ p'.title = p.title ∧
      p'.activityId = p.activityId ∧ p'.estimatedCost = p.estimatedCost ∧
      p'.description ≠ p.description ∧
      ∃ suf, suf ≠ "" ∧ p'.description = p.description ++ suf) := by
  constructor
  · intro trip acts trip2 user opts
    simp [enrichItineraryWithAI, buildLocallyEnrichedData, List.map_map]
  · intro trip acts trip2 user opts i s p p' hi hs hp hp'
    rw [genDays_length] at hi
    rw [genDays_getD trip acts i hi] at hs hp
    have hs3 : s < 3 := by
      rw [buildDay_periods] at hs
      simpa using hs
    rw [buildDay_periods_getD trip acts _ _ _ _ i s hs3] at hp
    have hdays : (enrichItineraryWithAI ⟨generateItineraryRules trip acts⟩ trip2 user
        opts).data.days
        = (generateItineraryRules trip acts).days.map (fun day =>
            { day with periods := (day.periods.map (fun period =>
                { period with description := (enrichPeriodDescription period
                    (if 0 < day.day then day.day else 1) trip2
                    (buildTravelerProfile trip2 user)) })) }) := rfl
    rw [hdays, getD_map_of_lt _ _ _ (by rw [genDays_length]; exact hi),
      genDays_getD trip acts i hi] at hp'
    dsimp only at hp'
    rw [getD_map_of_lt _ _ _ hs, buildDay_periods_getD trip acts _ _ _ _ i s hs3] at hp'
    subst hp hp'
    obtain ⟨X, hX⟩ := buildPeriod_description trip (destinationNameOf trip.title)
      (buildInterestSentence trip.interests)
      (perSlotBudget trip (dayCountAndStart trip).1)
      (pickActivity acts (i * 3 + s)) (timeSlots.getD s "")
    obtain ⟨suf, hsuf, hdesc⟩ := enrichPeriodDescription_split
      (buildPeriod trip (destinationNameOf trip.title)
        (buildInterestSentence trip.interests)
        (perSlotBudget trip (dayCountAndStart trip).1)
        (pickActivity acts (i * 3 + s)) (timeSlots.getD s ""))
      (if 0 < (buildDay trip acts (destinationNameOf trip.title)
          (buildInterestSentence trip.interests)
          (perSlotBudget trip (dayCountAndStart trip).1)
          (dayCountAndStart trip).2 i).day
        then (buildDay trip acts (destinationNameOf trip.title)
          (buildInterestSentence trip.interests)
          (perSlotBudget trip (dayCountAndStart trip).1)
          (dayCountAndStart trip).2 i).day else 1)
      trip2 (buildTravelerProfile trip2 user) X hX
    refine ⟨rfl, rfl, rfl, rfl, ?_, suf, hsuf, hdesc⟩
    show enrichPeriodDescription _ _ _ _ ≠ _
    rw [hdesc]
    intro heq
    have hlen := congrArg String.length heq
    rw [String.length_append] at hlen
    have hpos := length_pos_of_ne_empty suf hsuf
    omega

theorem C6_witness :
    ((enrichItineraryWithAI ⟨generateItineraryRules julyTrip [tourActivity]⟩ julyTrip
        (some ⟨some "Ana"⟩) ⟨none⟩).data.days.map (fun d => d.periods.length)
      = (generateItineraryRules julyTrip [tourActivity]).days.map
          (fun d => d.periods.length)) ∧
    ((((enrichItineraryWithAI ⟨generateItineraryRules julyTrip [tourActivity]⟩ julyTrip
        (some ⟨some "Ana"⟩) ⟨none⟩).data.days.getD 0 default).periods.getD 0
          default).timeOfDay
      = (((generateItineraryRules julyTrip [tourActivity]).days.getD 0
          default).periods.getD 0 default).timeOfDay ∧
    (((enrichItineraryWithAI ⟨generateItineraryRules julyTrip [tourActivity]⟩ julyTrip
        (some ⟨some "Ana"⟩) ⟨none⟩).data.days.getD 0 default).periods.getD 0
          default).title
      = (((generateItineraryRules julyTrip [tourActivity]).days.getD 0
          default).periods.getD 0 default).title ∧
    (((enrichItineraryWithAI ⟨generateItineraryRules julyTrip [tourActivity]⟩ julyTrip
        (some ⟨some "Ana"⟩) ⟨none⟩).data.days.getD 0 default).periods.getD 0
          default).activityId
      = (((generateItineraryRules julyTrip [tourActivity]).days.getD 0
          default).periods.getD 0 default).activityId ∧
    (((enrichItineraryWithAI ⟨generateItineraryRules julyTrip [tourActivity]⟩ julyTrip
        (some ⟨some "Ana"⟩) ⟨none⟩).data.days.getD 0 default).periods.getD 0
          default).estimatedCost
      = (((generateItineraryRules julyTrip [tourActivity]).days.getD 0
          default).periods.getD 0 default).estimatedCost ∧
    (((enrichItineraryWithAI ⟨generateItineraryRules julyTrip [tourActivity]⟩ julyTrip
        (some ⟨some "Ana"⟩) ⟨none⟩).data.days.getD 0 default).periods.getD 0
          default).description
      ≠ (((generateItineraryRules julyTrip [tourActivity]).days.getD 0
          default).periods.getD 0 default).description ∧
    ∃ suf, suf ≠ "" ∧
      (((enrichItineraryWithAI ⟨generateItineraryRules julyTrip [tourActivity]⟩ julyTrip
          (some ⟨some "Ana"⟩) ⟨none⟩).data.days.getD 0 default).periods.getD 0
            default).description
        = (((generateItineraryRules julyTrip [tourActivity]).days.getD 0
            default).periods.getD 0 default).description ++ suf) :=
  ⟨C6_enrich_frame.1 julyTrip [tourActivity] julyTrip (some ⟨some "Ana"⟩) ⟨none⟩,
   C6_enrich_frame.2 julyTrip [tourActivity] julyTrip (some ⟨some "Ana"⟩) ⟨none⟩ 0 0 _ _
     (by decide) (by decide) rfl rfl⟩
